import Mathlib

/-
Verification of the ESP8266 RTT (real-time timer) virtualization layer:
the hardware-independent counter/alarm/overflow state machine from
cpu/esp8266/periph/rtt.c, the free-running FRC2 timer backend from
cpu/esp8266/periph/rtt_hw_frc.c and the system-clock backend from
cpu/esp8266/periph/rtt_hw_sys.c.

Machine integers are modelled as Nat with explicit reduction modulo 2^32.
External readings (the backend hardware counter, the system time and the
RTC bridge counter) are passed to each operation as explicit arguments,
mirroring the instant at which the C code would read them. Callbacks are
modelled as identifiers (Option Nat, none standing for a NULL pointer);
the semantics of invoking a callback is supplied as an explicit function
argument where it matters.
-/

namespace RttSpec

/-- Modulus of 32-bit unsigned arithmetic. -/
def U32M : Nat := 4294967296

/-- Reduction of a natural number to a 32-bit unsigned value. -/
def u32 (a : Nat) : Nat := a % U32M

/-- 32-bit unsigned addition. -/
def u32add (a b : Nat) : Nat := (a + b) % U32M

/-- 32-bit unsigned subtraction (wrapping). -/
def u32sub (a b : Nat) : Nat := (a + (U32M - b % U32M)) % U32M

/-- Modelled from the spec: the virtual RTT counter runs at 1 MHz
(microsecond resolution), as stated by the spec and by the in-repo
rtt_arch.h documentation; the RTT_FREQUENCY macro itself is defined in a
platform header that is not among the given sources. -/
def RTT_FREQUENCY : Nat := 1000000

/-- Modelled from the spec: conversion of RTT ticks to microseconds
(the RTT_TICKS_TO_US macro of the platform rtt.h, which is not among the
given sources); at a 1 MHz tick rate it is the identity. The computation
is done in 64-bit arithmetic in the C code, hence no truncation here. -/
def RTT_TICKS_TO_US (ticks : Nat) : Nat := ticks * 1000000 / RTT_FREQUENCY

/-- State of the virtual RTT core, rtt_counter_t in rtt.c. Callbacks are
identifiers; none models a NULL pointer, argument 0 models NULL. -/
structure rtt_counter_t where
  alarm : Nat
  alarm_cb : Option Nat
  overflow_cb : Option Nat
  alarm_arg : Nat
  overflow_arg : Nat
  alarm_active : Nat
  alarm_set : Bool
  wakeup : Bool
deriving DecidableEq, Repr

/-- Core-level state: the rtt_counter singleton, the _rtt_offset variable
and the value currently programmed into the backend by set_alarm calls of
the core (none after a clear_alarm call on the backend). -/
structure RttCore where
  cnt : rtt_counter_t
  rtt_offset : Nat
  hw_alarm : Option Nat
deriving DecidableEq, Repr

/-- rtt_get_counter: backend counter reading plus _rtt_offset, as u32.
The reading hwCnt is the value the backend get_counter returns at the
instant of the call. The C function only reads state. -/
def rtt_get_counter (hwCnt : Nat) (s : RttCore) : Nat :=
  u32add hwCnt s.rtt_offset

/-- Next-hardware-event selection, _rtt_update_hw_alarm in rtt.c: arm the
backend for the user alarm, or for the wrap point, or clear it. -/
def _rtt_update_hw_alarm (hwCnt : Nat) (s : RttCore) : RttCore :=
  if s.cnt.alarm_cb.isSome ∧
     (s.cnt.alarm > rtt_get_counter hwCnt s ∨ s.cnt.overflow_cb = none) then
    { s with cnt := { s.cnt with alarm_active := s.cnt.alarm, alarm_set := true },
             hw_alarm := some (u32sub s.cnt.alarm s.rtt_offset) }
  else if s.cnt.overflow_cb.isSome then
    { s with cnt := { s.cnt with alarm_active := 0, alarm_set := true },
             hw_alarm := some (u32sub 0 s.rtt_offset) }
  else
    { s with cnt := { s.cnt with alarm_set := false }, hw_alarm := none }

/-- rtt_set_overflow_cb: install the overflow callback, then reselect the
next hardware event. -/
def rtt_set_overflow_cb (hwCnt : Nat) (cb : Option Nat) (arg : Nat)
    (s : RttCore) : RttCore :=
  _rtt_update_hw_alarm hwCnt
    { s with cnt := { s.cnt with overflow_cb := cb, overflow_arg := arg } }

/-- rtt_clear_overflow_cb: remove the overflow callback, then reselect the
next hardware event. -/
def rtt_clear_overflow_cb (hwCnt : Nat) (s : RttCore) : RttCore :=
  _rtt_update_hw_alarm hwCnt
    { s with cnt := { s.cnt with overflow_cb := none, overflow_arg := 0 } }

/-- rtt_set_alarm: install the alarm value, callback and argument, then
reselect the next hardware event. -/
def rtt_set_alarm (hwCnt : Nat) (alarm : Nat) (cb : Option Nat) (arg : Nat)
    (s : RttCore) : RttCore :=
  _rtt_update_hw_alarm hwCnt
    { s with cnt := { s.cnt with alarm := alarm, alarm_cb := cb, alarm_arg := arg } }

/-- rtt_clear_alarm: reset the alarm value to 0 and detach the callback
and argument, then reselect the next hardware event. -/
def rtt_clear_alarm (hwCnt : Nat) (s : RttCore) : RttCore :=
  _rtt_update_hw_alarm hwCnt
    { s with cnt := { s.cnt with alarm := 0, alarm_cb := none, alarm_arg := 0 } }

/-- rtt_get_alarm: the last alarm value requested at the interface. -/
def rtt_get_alarm (s : RttCore) : Nat := s.cnt.alarm

/-- rtt_set_counter: rebase _rtt_offset against the current backend
reading, then reselect the next hardware event. -/
def rtt_set_counter (hwCnt : Nat) (counter : Nat) (s : RttCore) : RttCore :=
  _rtt_update_hw_alarm hwCnt { s with rtt_offset := u32sub counter hwCnt }

/-- rtt_init, core-visible part: the backend init and the restore of the
counter from retained RTC state touch only backend state (modelled
separately); on the core state rtt_init clears the alarm and the overflow
callback, each reselecting the next hardware event. -/
def rtt_init (hwCnt : Nat) (s : RttCore) : RttCore :=
  rtt_clear_overflow_cb hwCnt (rtt_clear_alarm hwCnt s)

/-- Semantics of invoking a callback: given the callback identifier and
its argument, a transformer of the core state. The C code invokes raw
function pointers; what those functions do to the RTT state is a
parameter of the model. -/
def CbSem : Type := Nat → Nat → RttCore → RttCore

/-- Callback semantics under which no callback touches the RTT state. -/
def idCbSem : CbSem := fun _ _ s => s

/-- First phase of the interrupt dispatch _rtt_isr of rtt.c: the wakeup
flag is consumed when set. -/
def _rtt_isr_wakeup (s0 : RttCore) : RttCore :=
  if s0.cnt.wakeup then { s0 with cnt := { s0.cnt with wakeup := false } }
  else s0

/-- Alarm phase of the interrupt dispatch: when the captured fired value
equals the still-pending requested alarm value and an alarm callback is
registered, the callback and argument are read out, the alarm is cleared
(rtt_clear_alarm, which also selects the next hardware event), and only
then is the callback invoked. Returns the state and the invocations. -/
def _rtt_isr_alarm_branch (sem : CbSem) (hwCnt alarm : Nat) (s1 : RttCore) :
    RttCore × List (Nat × Nat) :=
  if alarm = s1.cnt.alarm then
    match s1.cnt.alarm_cb with
    | some cb =>
      (sem cb s1.cnt.alarm_arg (rtt_clear_alarm hwCnt s1),
       [(cb, s1.cnt.alarm_arg)])
    | none => (s1, [])
  else (s1, [])

/-- Overflow phase of the interrupt dispatch: when the captured fired
value is the overflow sentinel 0, the next hardware event is reselected
and then the overflow callback is invoked if registered. -/
def _rtt_isr_overflow_branch (sem : CbSem) (hwCnt alarm : Nat)
    (sa : RttCore × List (Nat × Nat)) : RttCore × List (Nat × Nat) :=
  if alarm = 0 then
    match (_rtt_update_hw_alarm hwCnt sa.1).cnt.overflow_cb with
    | some ocb =>
      (sem ocb (_rtt_update_hw_alarm hwCnt sa.1).cnt.overflow_arg
         (_rtt_update_hw_alarm hwCnt sa.1),
       sa.2 ++ [(ocb, (_rtt_update_hw_alarm hwCnt sa.1).cnt.overflow_arg)])
    | none => (_rtt_update_hw_alarm hwCnt sa.1, sa.2)
  else sa

/-- Interrupt dispatch _rtt_isr of rtt.c: capture the fired alarm_active
value, consume the wakeup flag, run the alarm phase and then the
overflow phase. Returns the new core state and the list of performed
callback invocations (identifier and argument), in order. -/
def _rtt_isr (sem : CbSem) (hwCnt : Nat) (s0 : RttCore) :
    RttCore × List (Nat × Nat) :=
  _rtt_isr_overflow_branch sem hwCnt s0.cnt.alarm_active
    (_rtt_isr_alarm_branch sem hwCnt s0.cnt.alarm_active (_rtt_isr_wakeup s0))

/-- Full system seen by the power-management hooks: the core state plus
the state of the active backend (of type beta, instantiated per backend). -/
structure RttSys (β : Type) where
  core : RttCore
  hw : β
deriving DecidableEq, Repr

/-- rtt_pm_sleep_enter: first rtt_save_counter (forwarded to the backend
through the save argument), then, when an event is armed, the wrapped
32-bit distance from the current counter to alarm_active converted to
microseconds; the wakeup flag gets true exactly when that distance is
nonzero. The return value is cast back to uint32_t. -/
def rtt_pm_sleep_enter {β : Type} (save : β → β) (hwCnt : Nat)
    (s : RttSys β) : RttSys β × Nat :=
  let s := { s with hw := save s.hw }
  if s.core.cnt.alarm_set = false then
    (s, 0)
  else
    let counter := rtt_get_counter hwCnt s.core
    let t_diff := RTT_TICKS_TO_US (u32sub s.core.cnt.alarm_active counter)
    if t_diff ≠ 0 then
      ({ s with core := { s.core with
                          cnt := { s.core.cnt with wakeup := true } } },
       u32 t_diff)
    else
      ({ s with core := { s.core with
                          cnt := { s.core.cnt with wakeup := false } } },
       u32 t_diff)

/-- Events of an execution of the core state machine. Each event carries
the backend counter reading at the instant it runs. -/
inductive RttEv where
  | evSetAlarm (hwCnt alarm : Nat) (cb : Option Nat) (arg : Nat)
  | evClearAlarm (hwCnt : Nat)
  | evSetOverflowCb (hwCnt : Nat) (cb : Option Nat) (arg : Nat)
  | evClearOverflowCb (hwCnt : Nat)
  | evSetCounter (hwCnt v : Nat)
  | evIsr (hwCnt : Nat)
deriving DecidableEq, Repr

/-- One step of the core state machine: the public operations perform no
callback invocation, the interrupt dispatch may. -/
def rtt_step (sem : CbSem) (s : RttCore) : RttEv → RttCore × List (Nat × Nat)
  | .evSetAlarm h a cb arg => (rtt_set_alarm h a cb arg s, [])
  | .evClearAlarm h => (rtt_clear_alarm h s, [])
  | .evSetOverflowCb h cb arg => (rtt_set_overflow_cb h cb arg s, [])
  | .evClearOverflowCb h => (rtt_clear_overflow_cb h s, [])
  | .evSetCounter h v => (rtt_set_counter h v s, [])
  | .evIsr h => _rtt_isr sem h s

/-- Run of the core state machine over a list of events, collecting the
callback invocations in order. -/
def rtt_run (sem : CbSem) (s : RttCore) : List RttEv → RttCore × List (Nat × Nat)
  | [] => (s, [])
  | e :: es =>
    let r := rtt_step sem s e
    let rs := rtt_run sem r.1 es
    (rs.1, r.2 ++ rs.2)

/-
System-clock backend, rtt_hw_sys.c. External inputs passed per call:
sys_time, the reading of the microsecond system clock system_get_time,
and rtc, the reading RTC.COUNTER of the always-on RTC bridge counter.
The external calibration pair of the esp-idf SDK, rtc_clk_to_us and
pm_rtc_clock_cali_proc, is not among the given sources; following the
spec it is modelled as an explicit conversion-function argument c2us
together with the current calibration factor period.
-/

/-- SYS_US_TO_COUNT of rtt_hw_sys.c: microseconds to RTT ticks, computed
in 64-bit arithmetic and truncated to uint32_t. -/
def SYS_US_TO_COUNT (us : Nat) : Nat := us * RTT_FREQUENCY / 1000000 % U32M

/-- SYS_COUNT_TO_US of rtt_hw_sys.c: RTT ticks to microseconds, computed
in 64-bit arithmetic and truncated to uint32_t. -/
def SYS_COUNT_TO_US (cnt : Nat) : Nat := cnt * 1000000 / RTT_FREQUENCY % U32M

/-- State of the system-clock backend: the running microsecond offset and
the two retained-memory snapshots. -/
structure SysHw where
  sys_counter_offset : Nat
  rtc_counter_saved : Nat
  sys_counter_saved : Nat
deriving DecidableEq, Repr

/-- _sys_get_counter: system time plus the backend offset (u32), scaled
to RTT ticks. -/
def _sys_get_counter (sys_time : Nat) (h : SysHw) : Nat :=
  SYS_US_TO_COUNT (u32add sys_time h.sys_counter_offset)

/-- _sys_save_counter: snapshot the RTC bridge counter and the offset
system time into retained memory. -/
def _sys_save_counter (sys_time rtc : Nat) (h : SysHw) : SysHw :=
  { h with rtc_counter_saved := u32 rtc,
           sys_counter_saved := u32add sys_time h.sys_counter_offset }

/-- _sys_restore_counter: fold the calibrated microseconds elapsed on the
RTC bridge since the save into the backend offset; when in_init also fold
in the saved system counter snapshot itself. -/
def _sys_restore_counter (c2us : Nat → Nat → Nat) (period rtc : Nat)
    (in_init : Bool) (h : SysHw) : SysHw :=
  let rtc_diff := u32sub rtc h.rtc_counter_saved
  let o1 := u32add h.sys_counter_offset (c2us rtc_diff period)
  { h with sys_counter_offset :=
      if in_init then u32add o1 h.sys_counter_saved else o1 }

/-
Free-running-timer backend, rtt_hw_frc.c: the 32-bit FRC2 up-counter
clocked at 80 MHz / 256 = 312500 Hz. Writing the load register sets the
counter register. The calibration pair is modelled as for the system
backend.
-/

/-- FRC_FREQUENCY: the 80 MHz AHB clock divided by 256. -/
def FRC_FREQUENCY : Nat := 80000000 / 256

/-- FRC_COUNTER_TO_US: raw FRC2 ticks to microseconds, 64-bit arithmetic
truncated to uint32_t. -/
def FRC_COUNTER_TO_US (cnt : Nat) : Nat := cnt * 1000000 / FRC_FREQUENCY % U32M

/-- FRC_US_TO_COUNTER: microseconds to raw FRC2 ticks, 64-bit arithmetic
truncated to uint32_t. -/
def FRC_US_TO_COUNTER (us : Nat) : Nat := us * FRC_FREQUENCY / 1000000 % U32M

/-- FRC_OVERFLOW: the raw FRC2 tick count corresponding to the wrap of
the 32-bit microsecond counter. -/
def FRC_OVERFLOW : Nat := FRC_US_TO_COUNTER (2 ^ 32)

/-- State of the free-running backend: the FRC2 counter register (writing
the load register sets it) and the two retained-memory snapshots. The
_frc_alarm bookkeeping of the backend is not needed by the claims on the
save/restore protocol. -/
structure FrcHw where
  count : Nat
  rtc_counter_saved : Nat
  frc_counter_saved : Nat
deriving DecidableEq, Repr

/-- _frc_get_counter: the raw FRC2 count scaled to microsecond ticks. -/
def _frc_get_counter (h : FrcHw) : Nat := FRC_COUNTER_TO_US h.count

/-- _frc_save_counter: snapshot the raw FRC2 count and the RTC bridge
counter into retained memory. -/
def _frc_save_counter (rtc : Nat) (h : FrcHw) : FrcHw :=
  { h with frc_counter_saved := u32 h.count, rtc_counter_saved := u32 rtc }

/-- _frc_restore_counter: convert the RTC delta since the save to raw FRC
ticks and write saved count plus delta to the load register; the sum is
a uint32 addition, wrapping modulo 2^32 before the reduction modulo
FRC_OVERFLOW. The in_init argument is not used by this backend. -/
def _frc_restore_counter (c2us : Nat → Nat → Nat) (period rtc : Nat)
    (in_init : Bool) (h : FrcHw) : FrcHw :=
  let rtc_diff := u32sub rtc h.rtc_counter_saved
  let diff_us := c2us rtc_diff period
  let frc_diff := FRC_US_TO_COUNTER diff_us
  { h with count := u32add h.frc_counter_saved frc_diff % FRC_OVERFLOW }

/-- Invariant of the core bookkeeping: the alarm_set flag records that at
least one callback is registered, and a nonzero alarm_active of an armed
event is the user-requested alarm value. -/
def RttInv (s : RttCore) : Prop :=
  s.cnt.alarm_set = (s.cnt.alarm_cb.isSome || s.cnt.overflow_cb.isSome) ∧
  (s.cnt.alarm_set = true → s.cnt.alarm_active ≠ 0 →
     s.cnt.alarm_active = s.cnt.alarm)

/-- Test whether an event installs the callback identifier cb (as alarm
callback or as overflow callback). -/
def evMentionsCb (cb : Nat) : RttEv → Bool
  | .evSetAlarm _ _ c _ => c = some cb
  | .evSetOverflowCb _ c _ => c = some cb
  | _ => false

/-- Test whether an event is an interrupt dispatch. -/
def evIsDispatch : RttEv → Bool
  | .evIsr _ => true
  | _ => false

/-- The callback identifier cb is not referenced by the core state. -/
def CbFree (cb : Nat) (s : RttCore) : Prop :=
  s.cnt.alarm_cb ≠ some cb ∧ s.cnt.overflow_cb ≠ some cb

/-- Identity save function on a trivial backend state, used to
instantiate the power-management theorems at concrete inputs. -/
def unitSave : Unit → Unit := fun u => u

/-- Example calibration function of the shape the SDK provides: RTC
cycles times the calibration factor, as a 12.12 fixed-point scale. Used
only to instantiate theorems at concrete inputs. -/
def calExample : Nat → Nat → Nat := fun cycles period => cycles * period / 4096

/-- Core state with nothing registered and offset zero. -/
def zeroCore : RttCore :=
  { cnt := { alarm := 0, alarm_cb := none, overflow_cb := none,
             alarm_arg := 0, overflow_arg := 0, alarm_active := 0,
             alarm_set := false, wakeup := false },
    rtt_offset := 0, hw_alarm := none }

/-- Armed state whose active alarm value equals the counter value read at
backend count 500: alarm 500 with a registered callback, offset 0. -/
def sleepEdgeState : RttSys Unit :=
  { core := { cnt := { alarm := 500, alarm_cb := some 1, overflow_cb := none,
                       alarm_arg := 0, overflow_arg := 0, alarm_active := 500,
                       alarm_set := true, wakeup := false },
              rtt_offset := 0, hw_alarm := some 500 },
    hw := () }

/-- Armed state whose active alarm value equals the counter value read at
backend count 1000: alarm 1000 with a registered callback, offset 0. -/
def sleepEqState : RttSys Unit :=
  { core := { cnt := { alarm := 1000, alarm_cb := some 1, overflow_cb := none,
                       alarm_arg := 0, overflow_arg := 0, alarm_active := 1000,
                       alarm_set := true, wakeup := false },
              rtt_offset := 0, hw_alarm := some 1000 },
    hw := () }

/-- Armed state with the alarm still ahead of the counter, used to
instantiate the sleep-entry theorems. -/
def sleepAheadState : RttSys Unit :=
  { core := { cnt := { alarm := 900, alarm_cb := some 1, overflow_cb := none,
                       alarm_arg := 0, overflow_arg := 0, alarm_active := 900,
                       alarm_set := true, wakeup := false },
              rtt_offset := 0, hw_alarm := some 900 },
    hw := () }

/-- Free-running backend state used for the restore counterexample: the
counter reads 100 but the retained snapshot pair is (rtc 5, count 0). -/
def c2FrcState : FrcHw :=
  { count := 100, rtc_counter_saved := 5, frc_counter_saved := 0 }

/-- Free-running backend state within counting range, for witnesses. -/
def frcWitnessState : FrcHw :=
  { count := 1000, rtc_counter_saved := 77, frc_counter_saved := 3 }

/-- System backend state for witnesses. -/
def sysWitnessState : SysHw :=
  { sys_counter_offset := 250, rtc_counter_saved := 9, sys_counter_saved := 4 }

/-- Scenario of claim C9: the state after set_alarm(1005000, cb 7, arg 42)
issued while the virtual counter reads 1000000 (offset 0). -/
def c9Armed : RttCore := rtt_set_alarm 1000000 1005000 (some 7) 42 zeroCore

/-- Scenario of claim C9: the dispatch once the counter reaches 1005000,
with state-neutral callback semantics. -/
def c9Fired : RttCore × List (Nat × Nat) := _rtt_isr idCbSem 1005000 c9Armed

/-- Armed state used for the dispatch re-arm witness: alarm 2000 with
callback 7 and argument 5, offset 0. -/
def c5State : RttCore :=
  { cnt := { alarm := 2000, alarm_cb := some 7, overflow_cb := none,
             alarm_arg := 5, overflow_arg := 0, alarm_active := 2000,
             alarm_set := true, wakeup := false },
    rtt_offset := 0, hw_alarm := some 2000 }

/-- Callback semantics in which every callback immediately re-arms a new
alarm 3000 with callback 9 and argument 11 at backend reading 2000. -/
def rearmSem : CbSem := fun _ _ st => rtt_set_alarm 2000 3000 (some 9) 11 st

/-- The next-event selection only rewrites alarm_active, alarm_set and
the programmed backend value; every other component is preserved. -/
theorem update_preserves (hwCnt : Nat) (s : RttCore) :
    (_rtt_update_hw_alarm hwCnt s).cnt.alarm = s.cnt.alarm ∧
    (_rtt_update_hw_alarm hwCnt s).cnt.alarm_cb = s.cnt.alarm_cb ∧
    (_rtt_update_hw_alarm hwCnt s).cnt.alarm_arg = s.cnt.alarm_arg ∧
    (_rtt_update_hw_alarm hwCnt s).cnt.overflow_cb = s.cnt.overflow_cb ∧
    (_rtt_update_hw_alarm hwCnt s).cnt.overflow_arg = s.cnt.overflow_arg ∧
    (_rtt_update_hw_alarm hwCnt s).rtt_offset = s.rtt_offset ∧
    (_rtt_update_hw_alarm hwCnt s).cnt.wakeup = s.cnt.wakeup := by
  unfold _rtt_update_hw_alarm
  split_ifs <;> exact ⟨rfl, rfl, rfl, rfl, rfl, rfl, rfl⟩

/-- The bookkeeping invariant holds after every next-event selection. -/
theorem rttInv_update (hwCnt : Nat) (s : RttCore) :
    RttInv (_rtt_update_hw_alarm hwCnt s) := by
  unfold RttInv _rtt_update_hw_alarm
  split_ifs with h1 h2
  · exact ⟨by simp [h1.1], fun _ _ => rfl⟩
  · exact ⟨by simp [h2], fun _ h => absurd rfl h⟩
  · have hovf : s.cnt.overflow_cb = none := by
      simpa [Option.not_isSome_iff_eq_none] using h2
    have hcb : s.cnt.alarm_cb.isSome = false := by
      by_contra hc
      exact h1 ⟨by simpa [Option.isSome_iff_ne_none] using hc, Or.inr hovf⟩
    exact ⟨by simp [hcb, hovf], by simp⟩

/-- C1: the next-hardware-event selection yields exactly one of three
outcomes, by the guards of the source: when an alarm callback is
registered and the alarm value is greater than the current counter value
or no overflow callback is registered, the backend is armed for the alarm
value (expressed in backend units, alarm minus offset) and alarm_active
becomes that alarm value with alarm_set true; otherwise when an overflow
callback is registered the backend is armed for virtual value 0 (backend
units, 0 minus offset) and alarm_active becomes 0 with alarm_set true;
otherwise the backend alarm is cleared and no event is marked armed.
After the selection alarm_set coincides with a backend event being
programmed, so at most one hardware event is armed, and every state
change of the core (init, set_alarm, clear_alarm, set_overflow_cb,
clear_overflow_cb, set_counter) ends in this selection. -/
theorem rtt_c1_next_event_selection (hwCnt a v oarg arg : Nat)
    (cb ocb : Option Nat) (s : RttCore) :
    ((s.cnt.alarm_cb.isSome ∧
        (s.cnt.alarm > rtt_get_counter hwCnt s ∨ s.cnt.overflow_cb = none) →
      (_rtt_update_hw_alarm hwCnt s).hw_alarm =
          some (u32sub s.cnt.alarm s.rtt_offset) ∧
      (_rtt_update_hw_alarm hwCnt s).cnt.alarm_active = s.cnt.alarm ∧
      (_rtt_update_hw_alarm hwCnt s).cnt.alarm_set = true) ∧
     (¬(s.cnt.alarm_cb.isSome ∧
         (s.cnt.alarm > rtt_get_counter hwCnt s ∨ s.cnt.overflow_cb = none)) ∧
        s.cnt.overflow_cb.isSome →
      (_rtt_update_hw_alarm hwCnt s).hw_alarm = some (u32sub 0 s.rtt_offset) ∧
      (_rtt_update_hw_alarm hwCnt s).cnt.alarm_active = 0 ∧
      (_rtt_update_hw_alarm hwCnt s).cnt.alarm_set = true) ∧
     (¬(s.cnt.alarm_cb.isSome ∧
         (s.cnt.alarm > rtt_get_counter hwCnt s ∨ s.cnt.overflow_cb = none)) ∧
        ¬ s.cnt.overflow_cb.isSome →
      (_rtt_update_hw_alarm hwCnt s).hw_alarm = none ∧
      (_rtt_update_hw_alarm hwCnt s).cnt.alarm_set = false) ∧
     (_rtt_update_hw_alarm hwCnt s).cnt.alarm_set =
       (_rtt_update_hw_alarm hwCnt s).hw_alarm.isSome) ∧
    rtt_set_alarm hwCnt a cb arg s = _rtt_update_hw_alarm hwCnt
      { s with cnt := { s.cnt with alarm := a, alarm_cb := cb, alarm_arg := arg } } ∧
    rtt_clear_alarm hwCnt s = _rtt_update_hw_alarm hwCnt
      { s with cnt := { s.cnt with alarm := 0, alarm_cb := none, alarm_arg := 0 } } ∧
    rtt_set_overflow_cb hwCnt ocb oarg s = _rtt_update_hw_alarm hwCnt
      { s with cnt := { s.cnt with overflow_cb := ocb, overflow_arg := oarg } } ∧
    rtt_clear_overflow_cb hwCnt s = _rtt_update_hw_alarm hwCnt
      { s with cnt := { s.cnt with overflow_cb := none, overflow_arg := 0 } } ∧
    rtt_set_counter hwCnt v s = _rtt_update_hw_alarm hwCnt
      { s with rtt_offset := u32sub v hwCnt } ∧
    rtt_init hwCnt s = _rtt_update_hw_alarm hwCnt
      { (rtt_clear_alarm hwCnt s) with cnt :=
          { (rtt_clear_alarm hwCnt s).cnt with overflow_cb := none, overflow_arg := 0 } } := by
  refine ⟨?_, rfl, rfl, rfl, rfl, rfl, rfl⟩
  unfold _rtt_update_hw_alarm
  split_ifs with h1 h2
  · exact ⟨fun _ => ⟨rfl, rfl, rfl⟩, fun hc => absurd h1 hc.1,
           fun hc => absurd h1 hc.1, rfl⟩
  · exact ⟨fun hc => absurd hc h1, fun _ => ⟨rfl, rfl, rfl⟩,
           fun hc => absurd h2 hc.2, rfl⟩
  · exact ⟨fun hc => absurd hc h1, fun hc => absurd hc.2 h2,
           fun _ => ⟨rfl, rfl⟩, rfl⟩

/-- Witness for C1 at a concrete armed-alarm state: callback 1 with alarm
10 ahead of the counter reading 3 arms the backend for 10. -/
theorem rtt_c1_witness :
    (_rtt_update_hw_alarm 3 (rtt_set_alarm 3 10 (some 1) 0 zeroCore)).cnt.alarm_active = 10 ∧
    (_rtt_update_hw_alarm 3 (rtt_set_alarm 3 10 (some 1) 0 zeroCore)).cnt.alarm_set = true := by
  have h := rtt_c1_next_event_selection 3 0 0 0 0 none none
    (rtt_set_alarm 3 10 (some 1) 0 zeroCore)
  exact ⟨(h.1.1 (by decide)).2.1, (h.1.1 (by decide)).2.2⟩

/-- C7: rtt_get_counter returns the backend counter plus the core offset
reduced modulo 2^32 (it is a pure reading, modelled as a function with no
state output), and rtt_set_counter rebases the offset so that a get with
an unchanged backend reading returns exactly the set value, after which
the armed hardware event is recomputed by the next-event selection. -/
theorem rtt_c7_counter_rebase (hwCnt v : Nat) (s : RttCore) (hv : v < U32M) :
    rtt_get_counter hwCnt s = (hwCnt + s.rtt_offset) % U32M ∧
    rtt_set_counter hwCnt v s =
      _rtt_update_hw_alarm hwCnt { s with rtt_offset := u32sub v hwCnt } ∧
    rtt_get_counter hwCnt (rtt_set_counter hwCnt v s) = v := by
  refine ⟨rfl, rfl, ?_⟩
  have hoff : (rtt_set_counter hwCnt v s).rtt_offset = u32sub v hwCnt :=
    (update_preserves hwCnt { s with rtt_offset := u32sub v hwCnt }).2.2.2.2.2.1
  rw [rtt_get_counter, hoff]
  unfold u32add u32sub U32M
  unfold U32M at hv
  omega

/-- Witness for C7: setting the counter to 77 at backend reading 30 makes
an immediate read return 77. -/
theorem rtt_c7_witness :
    rtt_get_counter 30 (rtt_set_counter 30 77 zeroCore) = 77 :=
  (rtt_c7_counter_rebase 30 77 zeroCore (by decide)).2.2

/-- C10: after init and after every public core operation the alarm_set
flag equals the registration of at least one of the two callbacks, a
nonzero alarm_active of an armed event equals the user-requested alarm
value, and clear_alarm additionally resets the stored alarm value to 0 so
that rtt_get_alarm returns 0 after clearing. -/
theorem rtt_c10_invariant (hwCnt a v oarg arg : Nat)
    (cb ocb : Option Nat) (s : RttCore) :
    RttInv (rtt_init hwCnt s) ∧
    RttInv (rtt_set_alarm hwCnt a cb arg s) ∧
    RttInv (rtt_clear_alarm hwCnt s) ∧
    RttInv (rtt_set_overflow_cb hwCnt ocb oarg s) ∧
    RttInv (rtt_clear_overflow_cb hwCnt s) ∧
    RttInv (rtt_set_counter hwCnt v s) ∧
    (rtt_clear_alarm hwCnt s).cnt.alarm = 0 ∧
    rtt_get_alarm (rtt_clear_alarm hwCnt s) = 0 := by
  refine ⟨rttInv_update _ _, rttInv_update _ _, rttInv_update _ _,
          rttInv_update _ _, rttInv_update _ _, rttInv_update _ _, ?_, ?_⟩
  · exact (update_preserves hwCnt
      { s with cnt := { s.cnt with alarm := 0, alarm_cb := none, alarm_arg := 0 } }).1
  · exact (update_preserves hwCnt
      { s with cnt := { s.cnt with alarm := 0, alarm_cb := none, alarm_arg := 0 } }).1

/-- Witness for C10 at a concrete state: after clearing the alarm on the
armed scenario state the stored alarm value reads 0 and the alarm_set
flag reflects the registered callbacks. -/
theorem rtt_c10_witness :
    rtt_get_alarm (rtt_clear_alarm 1001000 c9Armed) = 0 ∧
    (rtt_clear_alarm 1001000 c9Armed).cnt.alarm_set =
      ((rtt_clear_alarm 1001000 c9Armed).cnt.alarm_cb.isSome ||
       (rtt_clear_alarm 1001000 c9Armed).cnt.overflow_cb.isSome) := by
  have h := rtt_c10_invariant 1001000 0 0 0 0 none none c9Armed
  exact ⟨h.2.2.2.2.2.2.2, h.2.2.1.1⟩

/-- Wrapping 32-bit subtraction stays below the modulus. -/
theorem u32sub_lt (a b : Nat) : u32sub a b < U32M :=
  Nat.mod_lt _ (by decide)

/-- At the 1 MHz tick rate the tick-to-microsecond conversion is the
identity. -/
theorem ticks_to_us_id (t : Nat) : RTT_TICKS_TO_US t = t := by
  unfold RTT_TICKS_TO_US RTT_FREQUENCY
  omega

/-- C3 counterexample: a state in which an event is armed and the active
alarm value equals the current counter value. The claim says sleep entry
marks wakeup true whenever an event is armed; the code sets wakeup to
false because the computed distance is zero. -/
theorem rtt_c3_counterexample :
    sleepEdgeState.core.cnt.alarm_set = true ∧
    (rtt_pm_sleep_enter unitSave 500 sleepEdgeState).1.core.cnt.wakeup = false ∧
    (rtt_pm_sleep_enter unitSave 500 sleepEdgeState).2 = 0 := by
  decide

/-- Case analysis of rtt_pm_sleep_enter, shared by the sleep-entry
claims: the backend save happens in every case; with no armed event the
call returns 0 and leaves the core state unchanged; with an armed event
it returns the wrapped distance converted to microseconds and sets
wakeup to whether that distance is nonzero. -/
theorem sleep_enter_spec {β : Type} (save : β → β) (hwCnt : Nat)
    (s : RttSys β) :
    (rtt_pm_sleep_enter save hwCnt s).1.hw = save s.hw ∧
    (s.core.cnt.alarm_set = false →
       (rtt_pm_sleep_enter save hwCnt s).2 = 0 ∧
       (rtt_pm_sleep_enter save hwCnt s).1.core = s.core) ∧
    (s.core.cnt.alarm_set = true →
       (rtt_pm_sleep_enter save hwCnt s).2 =
         RTT_TICKS_TO_US
           (u32sub s.core.cnt.alarm_active (rtt_get_counter hwCnt s.core)) ∧
       (rtt_pm_sleep_enter save hwCnt s).1.core.cnt.wakeup =
         decide (RTT_TICKS_TO_US
           (u32sub s.core.cnt.alarm_active (rtt_get_counter hwCnt s.core)) ≠ 0) ∧
       (rtt_pm_sleep_enter save hwCnt s).1.core.cnt.alarm = s.core.cnt.alarm ∧
       (rtt_pm_sleep_enter save hwCnt s).1.core.cnt.alarm_active =
         s.core.cnt.alarm_active ∧
       (rtt_pm_sleep_enter save hwCnt s).1.core.cnt.alarm_set = true) := by
  have hid : ∀ t : Nat, u32 (RTT_TICKS_TO_US (u32sub s.core.cnt.alarm_active t)) =
      RTT_TICKS_TO_US (u32sub s.core.cnt.alarm_active t) := by
    intro t
    rw [ticks_to_us_id]
    exact Nat.mod_eq_of_lt (u32sub_lt _ _)
  simp only [rtt_pm_sleep_enter]
  split_ifs with h1 h2
  · exact ⟨rfl, fun _ => ⟨rfl, rfl⟩, fun ht => absurd ht (by simp [h1])⟩
  · refine ⟨rfl, fun hf => absurd hf h1, fun _ => ⟨hid (rtt_get_counter hwCnt s.core), ?_, rfl, rfl, ?_⟩⟩
    · simp [h2]
    · simpa using (Bool.not_eq_false _).mp h1
  · refine ⟨rfl, fun hf => absurd hf h1, fun _ => ⟨hid (rtt_get_counter hwCnt s.core), ?_, rfl, rfl, ?_⟩⟩
    · simp only [ne_eq, Decidable.not_not] at h2
      simp [h2]
    · simpa using (Bool.not_eq_false _).mp h1

/-- C3 as amended: rtt_pm_sleep_enter first performs the backend save in
every case; with no armed event it returns 0 and leaves the core state
unchanged; with an armed event it returns the microsecond distance from
the current counter value to the active alarm value and sets wakeup to
true exactly when that distance is nonzero (false when it is zero),
leaving the rest of the alarm state unchanged. -/
theorem rtt_c3_sleep_enter {β : Type} (save : β → β) (hwCnt : Nat)
    (s : RttSys β) :
    (rtt_pm_sleep_enter save hwCnt s).1.hw = save s.hw ∧
    (s.core.cnt.alarm_set = false →
       (rtt_pm_sleep_enter save hwCnt s).2 = 0 ∧
       (rtt_pm_sleep_enter save hwCnt s).1.core = s.core) ∧
    (s.core.cnt.alarm_set = true →
       (rtt_pm_sleep_enter save hwCnt s).2 =
         RTT_TICKS_TO_US
           (u32sub s.core.cnt.alarm_active (rtt_get_counter hwCnt s.core)) ∧
       (rtt_pm_sleep_enter save hwCnt s).1.core.cnt.wakeup =
         decide (RTT_TICKS_TO_US
           (u32sub s.core.cnt.alarm_active (rtt_get_counter hwCnt s.core)) ≠ 0) ∧
       (rtt_pm_sleep_enter save hwCnt s).1.core.cnt.alarm = s.core.cnt.alarm ∧
       (rtt_pm_sleep_enter save hwCnt s).1.core.cnt.alarm_active =
         s.core.cnt.alarm_active ∧
       (rtt_pm_sleep_enter save hwCnt s).1.core.cnt.alarm_set = true) :=
  sleep_enter_spec save hwCnt s

/-- Witness for C3 as amended: at the concrete armed state with counter
600 and alarm 900 the sleep entry returns the distance 300 and marks
wakeup true. -/
theorem rtt_c3_witness :
    (rtt_pm_sleep_enter unitSave 600 sleepAheadState).2 =
      RTT_TICKS_TO_US (u32sub 900 (rtt_get_counter 600 sleepAheadState.core)) ∧
    (rtt_pm_sleep_enter unitSave 600 sleepAheadState).1.core.cnt.wakeup = true := by
  have h := (rtt_c3_sleep_enter unitSave 600 sleepAheadState).2.2 (by decide)
  exact ⟨h.1, by rw [h.2.1]; decide⟩

/-- C4 counterexample: an armed state whose nonzero active alarm value
equals the current counter value. The claim says that whenever the
active alarm is numerically less than or equal to the counter the sleep
entry returns a very large unsigned duration rather than 0; here it
returns exactly 0. -/
theorem rtt_c4_counterexample :
    sleepEqState.core.cnt.alarm_set = true ∧
    sleepEqState.core.cnt.alarm_active ≠ 0 ∧
    sleepEqState.core.cnt.alarm_active ≤ rtt_get_counter 1000 sleepEqState.core ∧
    (rtt_pm_sleep_enter unitSave 1000 sleepEqState).2 = 0 := by
  decide

/-- C4 as amended: the sleep-entry distance is computed by unsigned
32-bit subtraction with no already-passed check, so whenever the active
alarm value is numerically strictly less than the current counter value
the returned duration is the wrapped difference 2^32 minus (counter
minus alarm_active) converted to microseconds, a large nonzero value;
when the two are equal the subtraction yields 0 and 0 is returned. -/
theorem rtt_c4_sleep_underflow {β : Type} (save : β → β) (hwCnt : Nat)
    (s : RttSys β)
    (h1 : s.core.cnt.alarm_set = true)
    (h2 : s.core.cnt.alarm_active < rtt_get_counter hwCnt s.core)
    (h3 : s.core.cnt.alarm_active < U32M) :
    (rtt_pm_sleep_enter save hwCnt s).2 =
      RTT_TICKS_TO_US
        (U32M - (rtt_get_counter hwCnt s.core - s.core.cnt.alarm_active)) ∧
    (rtt_pm_sleep_enter save hwCnt s).2 ≠ 0 ∧
    (rtt_pm_sleep_enter save hwCnt s).1.core.cnt.wakeup = true := by
  have hc : rtt_get_counter hwCnt s.core < U32M :=
    Nat.mod_lt _ (by decide)
  have hd : u32sub s.core.cnt.alarm_active (rtt_get_counter hwCnt s.core) =
      U32M - (rtt_get_counter hwCnt s.core - s.core.cnt.alarm_active) := by
    unfold u32sub
    unfold U32M at hc h3 ⊢
    omega
  have h := (sleep_enter_spec save hwCnt s).2.2 h1
  rw [hd] at h
  have hne : RTT_TICKS_TO_US
      (U32M - (rtt_get_counter hwCnt s.core - s.core.cnt.alarm_active)) ≠ 0 := by
    rw [ticks_to_us_id]
    unfold U32M at hc ⊢
    omega
  refine ⟨h.1, by rw [h.1]; exact hne, ?_⟩
  rw [h.2.1]
  simp [hne]

/-- Witness for C4 as amended: at the concrete armed state with alarm 900
already passed (counter 950) the sleep entry returns 2^32 minus 50. -/
theorem rtt_c4_witness :
    (rtt_pm_sleep_enter unitSave 950 sleepAheadState).2 = 4294967246 ∧
    (rtt_pm_sleep_enter unitSave 950 sleepAheadState).1.core.cnt.wakeup = true := by
  have h := rtt_c4_sleep_underflow unitSave 950 sleepAheadState
    (by decide) (by decide) (by decide)
  exact ⟨by rw [h.1]; decide, h.2.2⟩

/-- C2 counterexample: the free-running backend ignores in_init. With a
zero elapsed RTC delta, a restore with in_init false should, per the
claim, fold only the elapsed delta into the backend and leave the
counter at its current value 100; instead the load write replaces the
counter with saved plus delta, here 0, and the in_init true and false
restores produce identical states. -/
theorem rtt_c2_counterexample :
    _frc_restore_counter calExample 3000 5 true c2FrcState =
      _frc_restore_counter calExample 3000 5 false c2FrcState ∧
    (_frc_restore_counter calExample 3000 5 false c2FrcState).count = 0 ∧
    c2FrcState.count = 100 := by
  decide

/-- C2 as amended: the system-clock backend distinguishes in_init as the
claim states, folding the calibrated elapsed microseconds into the
offset and, when in_init, additionally the saved counter snapshot
itself; the free-running backend ignores in_init and always writes the
uint32 sum of saved count and elapsed delta (wrapping modulo 2^32),
reduced modulo the hardware wrap FRC_OVERFLOW, to the load register, an
absolute write that replaces the current count. -/
theorem rtt_c2_restore_distinction (c2us : Nat → Nat → Nat)
    (period rtc : Nat) (hs : SysHw) (hf : FrcHw) (b : Bool) :
    (_sys_restore_counter c2us period rtc true hs).sys_counter_offset =
      u32add (u32add hs.sys_counter_offset
                (c2us (u32sub rtc hs.rtc_counter_saved) period))
             hs.sys_counter_saved ∧
    (_sys_restore_counter c2us period rtc false hs).sys_counter_offset =
      u32add hs.sys_counter_offset
        (c2us (u32sub rtc hs.rtc_counter_saved) period) ∧
    _frc_restore_counter c2us period rtc b hf =
      _frc_restore_counter c2us period rtc false hf ∧
    (_frc_restore_counter c2us period rtc b hf).count =
      u32add hf.frc_counter_saved
        (FRC_US_TO_COUNTER (c2us (u32sub rtc hf.rtc_counter_saved) period)) %
        FRC_OVERFLOW :=
  ⟨rfl, rfl, rfl, rfl⟩

/-- Subtracting the reduced value of a reading from the reading itself
wraps to zero. -/
theorem u32sub_self (a : Nat) : u32sub a (u32 a) = 0 := by
  unfold u32sub u32 U32M
  omega

/-- Adding a reduced value coincides with adding the value. -/
theorem u32add_mod_right (a b : Nat) : u32add a (b % U32M) = u32add a b := by
  unfold u32add U32M
  omega

/-- C8: a save immediately followed by a restore with in_init false and
no intervening advance of the RTC bridge counter leaves the counter
value of either backend, and hence the virtual counter (backend value
plus core offset), exactly unchanged. The calibration function is
assumed to convert zero elapsed ticks to zero microseconds, and the raw
free-running count is assumed within its managed range below
FRC_OVERFLOW (the overflow reload in the backend interrupt handler keeps
it there). -/
theorem rtt_c8_roundtrip (c2us : Nat → Nat → Nat)
    (period sys_time rtc : Nat) (hs : SysHw) (hf : FrcHw) (core : RttCore)
    (hzero : c2us 0 period = 0) (hcount : hf.count < FRC_OVERFLOW) :
    _sys_get_counter sys_time
        (_sys_restore_counter c2us period rtc false
          (_sys_save_counter sys_time rtc hs)) =
      _sys_get_counter sys_time hs ∧
    _frc_get_counter
        (_frc_restore_counter c2us period rtc false
          (_frc_save_counter rtc hf)) =
      _frc_get_counter hf ∧
    rtt_get_counter
        (_sys_get_counter sys_time
          (_sys_restore_counter c2us period rtc false
            (_sys_save_counter sys_time rtc hs))) core =
      rtt_get_counter (_sys_get_counter sys_time hs) core ∧
    rtt_get_counter
        (_frc_get_counter
          (_frc_restore_counter c2us period rtc false
            (_frc_save_counter rtc hf))) core =
      rtt_get_counter (_frc_get_counter hf) core := by
  have hoff : (_sys_restore_counter c2us period rtc false
        (_sys_save_counter sys_time rtc hs)).sys_counter_offset =
      hs.sys_counter_offset % U32M := by
    unfold _sys_save_counter _sys_restore_counter
    simp [u32sub_self, hzero]
    unfold u32add U32M
    omega
  have hsys : _sys_get_counter sys_time
      (_sys_restore_counter c2us period rtc false
        (_sys_save_counter sys_time rtc hs)) = _sys_get_counter sys_time hs := by
    unfold _sys_get_counter
    rw [hoff, u32add_mod_right]
  have hfrc : _frc_get_counter
      (_frc_restore_counter c2us period rtc false
        (_frc_save_counter rtc hf)) = _frc_get_counter hf := by
    unfold _frc_save_counter _frc_restore_counter _frc_get_counter
    simp only [u32sub_self, hzero]
    have h0 : FRC_US_TO_COUNTER 0 = 0 := by decide
    have hlt : hf.count < U32M :=
      lt_trans hcount (by decide)
    rw [h0]
    rw [show u32add (u32 hf.count) 0 = hf.count from by
          unfold u32add u32
          unfold U32M at hlt ⊢
          omega,
        Nat.mod_eq_of_lt hcount]
  exact ⟨hsys, hfrc, by rw [hsys], by rw [hfrc]⟩

/-- Witness for C8 at concrete backend states and the example calibration
function: the zero-duration round trip leaves both counters unchanged. -/
theorem rtt_c8_witness :
    _sys_get_counter 123456
        (_sys_restore_counter calExample 3000 42 false
          (_sys_save_counter 123456 42 sysWitnessState)) =
      _sys_get_counter 123456 sysWitnessState ∧
    _frc_get_counter
        (_frc_restore_counter calExample 3000 42 false
          (_frc_save_counter 42 frcWitnessState)) =
      _frc_get_counter frcWitnessState := by
  have h := rtt_c8_roundtrip calExample 3000 123456 42 sysWitnessState
    frcWitnessState zeroCore (by decide) (by decide)
  exact ⟨h.1, h.2.1⟩

/-- C9 counterexample: in the concrete scenario (counter 1000000, then
set_alarm(1005000, cb 7, arg 42), dispatch at counter 1005000) the
callback is invoked exactly once with the original argument, but a
subsequent rtt_get_alarm returns 0 and not 1005000, although clear_alarm
was never called by the user: the dispatch itself cleared the alarm. -/
theorem rtt_c9_counterexample :
    c9Fired.2 = [(7, 42)] ∧
    rtt_get_alarm c9Fired.1 = 0 ∧
    (0 : Nat) ≠ 1005000 := by
  decide

/-- C9 as amended: in the concrete scenario the callback is invoked
exactly once with the original argument; rtt_get_alarm returns 1005000
from the set_alarm call up to the dispatch; the dispatch itself performs
clear_alarm before invoking the callback, so afterwards no event remains
armed and rtt_get_alarm returns 0. -/
theorem rtt_c9_scenario :
    rtt_get_counter 1000000 c9Armed = 1000000 ∧
    rtt_get_alarm c9Armed = 1005000 ∧
    c9Fired.2 = [(7, 42)] ∧
    c9Fired.1.cnt.alarm_set = false ∧
    c9Fired.1.hw_alarm = none ∧
    rtt_get_alarm c9Fired.1 = 0 := by
  decide

/-- Projection form of the preservation lemma: the stored alarm value. -/
theorem update_alarm (hwCnt : Nat) (s : RttCore) :
    (_rtt_update_hw_alarm hwCnt s).cnt.alarm = s.cnt.alarm :=
  (update_preserves hwCnt s).1

/-- Projection form of the preservation lemma: the alarm callback. -/
theorem update_alarm_cb (hwCnt : Nat) (s : RttCore) :
    (_rtt_update_hw_alarm hwCnt s).cnt.alarm_cb = s.cnt.alarm_cb :=
  (update_preserves hwCnt s).2.1

/-- Projection form of the preservation lemma: the alarm argument. -/
theorem update_alarm_arg (hwCnt : Nat) (s : RttCore) :
    (_rtt_update_hw_alarm hwCnt s).cnt.alarm_arg = s.cnt.alarm_arg :=
  (update_preserves hwCnt s).2.2.1

/-- Projection form of the preservation lemma: the overflow callback. -/
theorem update_overflow_cb (hwCnt : Nat) (s : RttCore) :
    (_rtt_update_hw_alarm hwCnt s).cnt.overflow_cb = s.cnt.overflow_cb :=
  (update_preserves hwCnt s).2.2.2.1

/-- C5: when the captured fired value equals the still-pending requested
alarm value, an alarm callback is registered and the fired value is not
the overflow sentinel, the dispatch invokes exactly that callback once
with the stored argument, on a state from which callback, argument and
alarm slot were already detached by clear_alarm; hence a callback whose
semantics immediately re-arms a new alarm through set_alarm finds its
registration intact when the dispatch completes: the final state is
precisely the re-armed state, and generally clear_alarm leaves the
callback slot empty and the alarm value zero. -/
theorem rtt_c5_detach_before_invoke (sem : CbSem) (hwCnt : Nat) (s : RttCore)
    (c v2 cb2 arg2 : Nat)
    (h1 : s.cnt.alarm_cb = some c)
    (h2 : s.cnt.alarm_active = s.cnt.alarm)
    (h3 : s.cnt.alarm_active ≠ 0)
    (h4 : ∀ a st, sem c a st = rtt_set_alarm hwCnt v2 (some cb2) arg2 st) :
    (_rtt_isr sem hwCnt s).2 = [(c, s.cnt.alarm_arg)] ∧
    (_rtt_isr sem hwCnt s).1.cnt.alarm = v2 ∧
    (_rtt_isr sem hwCnt s).1.cnt.alarm_cb = some cb2 ∧
    (_rtt_isr sem hwCnt s).1.cnt.alarm_arg = arg2 ∧
    (_rtt_isr sem hwCnt s).1 =
      rtt_set_alarm hwCnt v2 (some cb2) arg2
        (rtt_clear_alarm hwCnt
          (if s.cnt.wakeup then { s with cnt := { s.cnt with wakeup := false } }
           else s)) ∧
    (∀ hw0 t, (rtt_clear_alarm hw0 t).cnt.alarm_cb = none ∧
              (rtt_clear_alarm hw0 t).cnt.alarm = 0) := by
  have hdetach : ∀ hw0 t, (rtt_clear_alarm hw0 t).cnt.alarm_cb = none ∧
      (rtt_clear_alarm hw0 t).cnt.alarm = 0 := by
    intro hw0 t
    exact ⟨update_alarm_cb hw0 _, update_alarm hw0 _⟩
  have harm : ∀ t : RttCore,
      (rtt_set_alarm hwCnt v2 (some cb2) arg2 t).cnt.alarm = v2 ∧
      (rtt_set_alarm hwCnt v2 (some cb2) arg2 t).cnt.alarm_cb = some cb2 ∧
      (rtt_set_alarm hwCnt v2 (some cb2) arg2 t).cnt.alarm_arg = arg2 := by
    intro t
    exact ⟨update_alarm hwCnt _, update_alarm_cb hwCnt _, update_alarm_arg hwCnt _⟩
  have e1 : (_rtt_isr_wakeup s).cnt.alarm = s.cnt.alarm := by
    unfold _rtt_isr_wakeup; split <;> rfl
  have e2 : (_rtt_isr_wakeup s).cnt.alarm_cb = s.cnt.alarm_cb := by
    unfold _rtt_isr_wakeup; split <;> rfl
  have e3 : (_rtt_isr_wakeup s).cnt.alarm_arg = s.cnt.alarm_arg := by
    unfold _rtt_isr_wakeup; split <;> rfl
  have ew : _rtt_isr_wakeup s =
      (if s.cnt.wakeup then { s with cnt := { s.cnt with wakeup := false } }
       else s) := rfl
  have halarm : _rtt_isr_alarm_branch sem hwCnt s.cnt.alarm_active
      (_rtt_isr_wakeup s) =
      (rtt_set_alarm hwCnt v2 (some cb2) arg2
         (rtt_clear_alarm hwCnt (_rtt_isr_wakeup s)),
       [(c, s.cnt.alarm_arg)]) := by
    unfold _rtt_isr_alarm_branch
    rw [e1, if_pos h2]
    rw [show (_rtt_isr_wakeup s).cnt.alarm_cb = some c from e2.trans h1]
    rw [e3]
    show (sem c s.cnt.alarm_arg (rtt_clear_alarm hwCnt (_rtt_isr_wakeup s)),
          [(c, s.cnt.alarm_arg)]) =
         (rtt_set_alarm hwCnt v2 (some cb2) arg2
            (rtt_clear_alarm hwCnt (_rtt_isr_wakeup s)),
          [(c, s.cnt.alarm_arg)])
    rw [h4]
  have hovf : ∀ sa : RttCore × List (Nat × Nat),
      _rtt_isr_overflow_branch sem hwCnt s.cnt.alarm_active sa = sa := by
    intro sa
    unfold _rtt_isr_overflow_branch
    rw [if_neg h3]
  have hres : _rtt_isr sem hwCnt s =
      (rtt_set_alarm hwCnt v2 (some cb2) arg2
         (rtt_clear_alarm hwCnt (_rtt_isr_wakeup s)),
       [(c, s.cnt.alarm_arg)]) := by
    unfold _rtt_isr
    rw [halarm, hovf]
  rw [hres]
  rw [ew] at hres ⊢
  exact ⟨rfl, (harm _).1, (harm _).2.1, (harm _).2.2, rfl, hdetach⟩

/-- Witness for C5: dispatching the armed alarm 2000 under the re-arming
callback semantics invokes callback 7 once with argument 5 and leaves
the re-armed registration alarm 3000 with callback 9 in place. -/
theorem rtt_c5_witness :
    (_rtt_isr rearmSem 2000 c5State).2 = [(7, 5)] ∧
    (_rtt_isr rearmSem 2000 c5State).1.cnt.alarm = 3000 ∧
    (_rtt_isr rearmSem 2000 c5State).1.cnt.alarm_cb = some 9 := by
  have h := rtt_c5_detach_before_invoke rearmSem 2000 c5State 7 3000 9 11
    (by decide) (by decide) (by decide) (fun a st => rfl)
  exact ⟨h.1, h.2.1, h.2.2.1⟩

/-- Splitting a run over an appended event list. -/
theorem run_append (sem : CbSem) (l1 l2 : List RttEv) :
    ∀ s : RttCore, rtt_run sem s (l1 ++ l2) =
      ((rtt_run sem (rtt_run sem s l1).1 l2).1,
       (rtt_run sem s l1).2 ++ (rtt_run sem (rtt_run sem s l1).1 l2).2) := by
  induction l1 with
  | nil => intro s; simp [rtt_run]
  | cons e es ih =>
      intro s
      simp only [List.cons_append, rtt_run, List.append_eq, ih, List.append_assoc]

/-- A run containing no dispatch event performs no invocation. -/
theorem run_no_dispatch (sem : CbSem) (l : List RttEv) :
    ∀ s : RttCore, (∀ e ∈ l, evIsDispatch e = false) →
      (rtt_run sem s l).2 = [] := by
  induction l with
  | nil => intro s _; rfl
  | cons e es ih =>
      intro s hl
      have he := hl e (List.mem_cons_self e es)
      have hes : ∀ x ∈ es, evIsDispatch x = false :=
        fun x hx => hl x (List.mem_cons_of_mem e hx)
      cases e <;> simp [evIsDispatch] at he <;>
        simp [rtt_run, rtt_step, ih _ hes]

/-- The wakeup phase changes no callback registration. -/
theorem wakeup_fields (s : RttCore) :
    (_rtt_isr_wakeup s).cnt.alarm_cb = s.cnt.alarm_cb ∧
    (_rtt_isr_wakeup s).cnt.overflow_cb = s.cnt.overflow_cb := by
  unfold _rtt_isr_wakeup
  split <;> exact ⟨rfl, rfl⟩

/-- Under state-neutral callback semantics the alarm phase leaves the
overflow registration unchanged, leaves the alarm registration either
unchanged or detached, and only invokes the registered alarm callback. -/
theorem alarm_branch_id (hwCnt a : Nat) (s1 : RttCore) :
    (_rtt_isr_alarm_branch idCbSem hwCnt a s1).1.cnt.overflow_cb =
      s1.cnt.overflow_cb ∧
    ((_rtt_isr_alarm_branch idCbSem hwCnt a s1).1.cnt.alarm_cb = none ∨
     (_rtt_isr_alarm_branch idCbSem hwCnt a s1).1.cnt.alarm_cb =
       s1.cnt.alarm_cb) ∧
    (∀ p ∈ (_rtt_isr_alarm_branch idCbSem hwCnt a s1).2,
       s1.cnt.alarm_cb = some p.1) := by
  unfold _rtt_isr_alarm_branch idCbSem
  split
  · split
    next cb0 heq =>
      refine ⟨update_overflow_cb hwCnt _, Or.inl (update_alarm_cb hwCnt _), ?_⟩
      intro p hp
      simp only [List.mem_singleton] at hp
      rw [hp, heq]
    next heq => exact ⟨rfl, Or.inr rfl, by simp⟩
  · exact ⟨rfl, Or.inr rfl, by simp⟩

/-- Under state-neutral callback semantics the overflow phase preserves
both callback registrations and only appends an invocation of the
registered overflow callback. -/
theorem overflow_branch_id (hwCnt a : Nat) (sa : RttCore × List (Nat × Nat)) :
    (_rtt_isr_overflow_branch idCbSem hwCnt a sa).1.cnt.overflow_cb =
      sa.1.cnt.overflow_cb ∧
    (_rtt_isr_overflow_branch idCbSem hwCnt a sa).1.cnt.alarm_cb =
      sa.1.cnt.alarm_cb ∧
    (∀ p ∈ (_rtt_isr_overflow_branch idCbSem hwCnt a sa).2,
       p ∈ sa.2 ∨ sa.1.cnt.overflow_cb = some p.1) := by
  unfold _rtt_isr_overflow_branch idCbSem
  split
  · split
    next ocb heq =>
      refine ⟨update_overflow_cb hwCnt _, update_alarm_cb hwCnt _, ?_⟩
      intro p hp
      rcases List.mem_append.mp hp with hin | hone
      · exact Or.inl hin
      · simp only [List.mem_singleton] at hone
        rw [hone]
        exact Or.inr ((update_overflow_cb hwCnt sa.1) ▸ heq)
    next heq =>
      exact ⟨update_overflow_cb hwCnt _, update_alarm_cb hwCnt _,
             fun p hp => Or.inl hp⟩
  · exact ⟨rfl, rfl, fun p hp => Or.inl hp⟩

/-- One step with state-neutral callbacks and no event installing cb
keeps the state free of cb and performs no invocation of cb. -/
theorem step_preserve (cb : Nat) (s : RttCore) (e : RttEv)
    (hfree : CbFree cb s) (hm : evMentionsCb cb e = false) :
    CbFree cb (rtt_step idCbSem s e).1 ∧
    (∀ p ∈ (rtt_step idCbSem s e).2, p.1 ≠ cb) := by
  cases e with
  | evSetAlarm h a c' arg =>
      simp only [evMentionsCb, decide_eq_false_iff_not] at hm
      refine ⟨⟨?_, ?_⟩, by simp [rtt_step]⟩
      · rw [show (rtt_step idCbSem s (.evSetAlarm h a c' arg)).1.cnt.alarm_cb =
            c' from update_alarm_cb h _]
        exact hm
      · rw [show (rtt_step idCbSem s (.evSetAlarm h a c' arg)).1.cnt.overflow_cb =
            s.cnt.overflow_cb from update_overflow_cb h _]
        exact hfree.2
  | evClearAlarm h =>
      refine ⟨⟨?_, ?_⟩, by simp [rtt_step]⟩
      · rw [show (rtt_step idCbSem s (.evClearAlarm h)).1.cnt.alarm_cb =
            none from update_alarm_cb h _]
        exact fun hx => Option.noConfusion hx
      · rw [show (rtt_step idCbSem s (.evClearAlarm h)).1.cnt.overflow_cb =
            s.cnt.overflow_cb from update_overflow_cb h _]
        exact hfree.2
  | evSetOverflowCb h c' arg =>
      simp only [evMentionsCb, decide_eq_false_iff_not] at hm
      refine ⟨⟨?_, ?_⟩, by simp [rtt_step]⟩
      · rw [show (rtt_step idCbSem s (.evSetOverflowCb h c' arg)).1.cnt.alarm_cb =
            s.cnt.alarm_cb from update_alarm_cb h _]
        exact hfree.1
      · rw [show (rtt_step idCbSem s (.evSetOverflowCb h c' arg)).1.cnt.overflow_cb =
            c' from update_overflow_cb h _]
        exact hm
  | evClearOverflowCb h =>
      refine ⟨⟨?_, ?_⟩, by simp [rtt_step]⟩
      · rw [show (rtt_step idCbSem s (.evClearOverflowCb h)).1.cnt.alarm_cb =
            s.cnt.alarm_cb from update_alarm_cb h _]
        exact hfree.1
      · rw [show (rtt_step idCbSem s (.evClearOverflowCb h)).1.cnt.overflow_cb =
            none from update_overflow_cb h _]
        exact fun hx => Option.noConfusion hx
  | evSetCounter h v =>
      refine ⟨⟨?_, ?_⟩, by simp [rtt_step]⟩
      · rw [show (rtt_step idCbSem s (.evSetCounter h v)).1.cnt.alarm_cb =
            s.cnt.alarm_cb from update_alarm_cb h _]
        exact hfree.1
      · rw [show (rtt_step idCbSem s (.evSetCounter h v)).1.cnt.overflow_cb =
            s.cnt.overflow_cb from update_overflow_cb h _]
        exact hfree.2
  | evIsr h =>
      have hw := wakeup_fields s
      have ha := alarm_branch_id h s.cnt.alarm_active (_rtt_isr_wakeup s)
      have ho := overflow_branch_id h s.cnt.alarm_active
        (_rtt_isr_alarm_branch idCbSem h s.cnt.alarm_active (_rtt_isr_wakeup s))
      have hres : rtt_step idCbSem s (.evIsr h) =
          _rtt_isr_overflow_branch idCbSem h s.cnt.alarm_active
            (_rtt_isr_alarm_branch idCbSem h s.cnt.alarm_active
              (_rtt_isr_wakeup s)) := rfl
      rw [hres]
      refine ⟨⟨?_, ?_⟩, ?_⟩
      · rw [ho.2.1]
        rcases ha.2.1 with hnone | heq
        · rw [hnone]; exact fun hx => Option.noConfusion hx
        · rw [heq, hw.1]; exact hfree.1
      · rw [ho.1, ha.1, hw.2]; exact hfree.2
      · intro p hp
        rcases ho.2.2 p hp with hin | hovf
        · have hsome := ha.2.2 p hin
          rw [hw.1] at hsome
          intro hpc
          rw [hpc] at hsome
          exact hfree.1 hsome
        · rw [ha.1, hw.2] at hovf
          intro hpc
          rw [hpc] at hovf
          exact hfree.2 hovf

/-- Preservation over a whole run: with state-neutral callbacks, a state
free of cb stays free of cb under events that do not install cb, and no
invocation of cb is performed. -/
theorem run_preserve (cb : Nat) (l : List RttEv) :
    ∀ s : RttCore, CbFree cb s → (∀ e ∈ l, evMentionsCb cb e = false) →
      CbFree cb (rtt_run idCbSem s l).1 ∧
      (∀ p ∈ (rtt_run idCbSem s l).2, p.1 ≠ cb) := by
  induction l with
  | nil => intro s hf _; exact ⟨hf, by simp [rtt_run]⟩
  | cons e es ih =>
      intro s hf hl
      have hstep := step_preserve cb s e hf (hl e (List.mem_cons_self e es))
      have hrest := ih (rtt_step idCbSem s e).1 hstep.1
        (fun x hx => hl x (List.mem_cons_of_mem e hx))
      refine ⟨hrest.1, ?_⟩
      intro p hp
      simp only [rtt_run] at hp
      rcases List.mem_append.mp hp with h1 | h2
      · exact hstep.2 p h1
      · exact hrest.2 p h2

/-- One step with state-neutral callbacks keeps the overflow slot free
of cb when the event does not install cb (the alarm slot may hold cb). -/
theorem step_ovf_only (cb : Nat) (s : RttCore) (e : RttEv)
    (hovf : s.cnt.overflow_cb ≠ some cb) (hm : evMentionsCb cb e = false) :
    (rtt_step idCbSem s e).1.cnt.overflow_cb ≠ some cb := by
  cases e with
  | evSetAlarm h a c' arg =>
      rw [show (rtt_step idCbSem s (.evSetAlarm h a c' arg)).1.cnt.overflow_cb =
          s.cnt.overflow_cb from update_overflow_cb h _]
      exact hovf
  | evClearAlarm h =>
      rw [show (rtt_step idCbSem s (.evClearAlarm h)).1.cnt.overflow_cb =
          s.cnt.overflow_cb from update_overflow_cb h _]
      exact hovf
  | evSetOverflowCb h c' arg =>
      simp only [evMentionsCb, decide_eq_false_iff_not] at hm
      rw [show (rtt_step idCbSem s (.evSetOverflowCb h c' arg)).1.cnt.overflow_cb =
          c' from update_overflow_cb h _]
      exact hm
  | evClearOverflowCb h =>
      rw [show (rtt_step idCbSem s (.evClearOverflowCb h)).1.cnt.overflow_cb =
          none from update_overflow_cb h _]
      exact fun hx => Option.noConfusion hx
  | evSetCounter h v =>
      rw [show (rtt_step idCbSem s (.evSetCounter h v)).1.cnt.overflow_cb =
          s.cnt.overflow_cb from update_overflow_cb h _]
      exact hovf
  | evIsr h =>
      have hw := wakeup_fields s
      have ha := alarm_branch_id h s.cnt.alarm_active (_rtt_isr_wakeup s)
      have ho := overflow_branch_id h s.cnt.alarm_active
        (_rtt_isr_alarm_branch idCbSem h s.cnt.alarm_active (_rtt_isr_wakeup s))
      have hres : rtt_step idCbSem s (.evIsr h) =
          _rtt_isr_overflow_branch idCbSem h s.cnt.alarm_active
            (_rtt_isr_alarm_branch idCbSem h s.cnt.alarm_active
              (_rtt_isr_wakeup s)) := rfl
      rw [hres, ho.1, ha.1, hw.2]
      exact hovf

/-- Overflow-slot preservation over a whole run. -/
theorem run_ovf_only (cb : Nat) (l : List RttEv) :
    ∀ s : RttCore, s.cnt.overflow_cb ≠ some cb →
      (∀ e ∈ l, evMentionsCb cb e = false) →
      (rtt_run idCbSem s l).1.cnt.overflow_cb ≠ some cb := by
  induction l with
  | nil => intro s hovf _; exact hovf
  | cons e es ih =>
      intro s hovf hl
      exact ih (rtt_step idCbSem s e).1
        (step_ovf_only cb s e hovf (hl e (List.mem_cons_self e es)))
        (fun x hx => hl x (List.mem_cons_of_mem e hx))

/-- C6: in any execution in which set_alarm(v, cb, arg) is issued, no
dispatch occurs before clear_alarm (the counter never reaches v before
the clear, so the hardware does not fire; a dispatch already in flight
at the clear is one running after it, in the remainder of the trace),
no later event re-installs cb and cb was not the overflow callback, the
callback cb is never invoked: in particular every dispatch after the
clear, at whatever counter reading, is suppressed by the check that the
fired value matches the currently registered alarm value and that a
callback is still registered. -/
theorem rtt_c6_clear_suppresses (s : RttCore) (hw0 hwc v arg cb : Nat)
    (mid rest : List RttEv)
    (hmid : ∀ e ∈ mid, evMentionsCb cb e = false ∧ evIsDispatch e = false)
    (hrest : ∀ e ∈ rest, evMentionsCb cb e = false)
    (hovf : s.cnt.overflow_cb ≠ some cb) :
    ∀ p ∈ (rtt_run idCbSem (rtt_set_alarm hw0 v (some cb) arg s)
             (mid ++ RttEv.evClearAlarm hwc :: rest)).2, p.1 ≠ cb := by
  intro p hp
  rw [run_append idCbSem mid (RttEv.evClearAlarm hwc :: rest)] at hp
  rcases List.mem_append.mp hp with h1 | h2
  · rw [run_no_dispatch idCbSem mid _ (fun e he => (hmid e he).2)] at h1
    exact absurd h1 (List.not_mem_nil p)
  · have hovf0 : (rtt_set_alarm hw0 v (some cb) arg s).cnt.overflow_cb ≠
        some cb := by
      rw [show (rtt_set_alarm hw0 v (some cb) arg s).cnt.overflow_cb =
          s.cnt.overflow_cb from update_overflow_cb hw0 _]
      exact hovf
    have hovf1 : (rtt_run idCbSem (rtt_set_alarm hw0 v (some cb) arg s)
        mid).1.cnt.overflow_cb ≠ some cb :=
      run_ovf_only cb mid _ hovf0 (fun e he => (hmid e he).1)
    simp only [rtt_run] at h2
    rcases List.mem_append.mp h2 with h3 | h4
    · simp [rtt_step] at h3
    · have hfree2 : CbFree cb (rtt_step idCbSem
          (rtt_run idCbSem (rtt_set_alarm hw0 v (some cb) arg s) mid).1
          (RttEv.evClearAlarm hwc)).1 := by
        constructor
        · rw [show (rtt_step idCbSem
              (rtt_run idCbSem (rtt_set_alarm hw0 v (some cb) arg s) mid).1
              (RttEv.evClearAlarm hwc)).1.cnt.alarm_cb = none from
              update_alarm_cb hwc _]
          exact fun hx => Option.noConfusion hx
        · rw [show (rtt_step idCbSem
              (rtt_run idCbSem (rtt_set_alarm hw0 v (some cb) arg s) mid).1
              (RttEv.evClearAlarm hwc)).1.cnt.overflow_cb =
              (rtt_run idCbSem (rtt_set_alarm hw0 v (some cb) arg s)
                mid).1.cnt.overflow_cb from update_overflow_cb hwc _]
          exact hovf1
      exact (run_preserve cb rest _ hfree2 hrest).2 p h4

/-- Witness for C6 on a concrete trace: set_alarm(100, cb 5, arg 13) at
reading 10, a set_counter in between, clear_alarm at reading 30, then an
in-flight dispatch at reading 200: the pair (5, 13) is never invoked. -/
theorem rtt_c6_witness :
    (5, 13) ∉ (rtt_run idCbSem (rtt_set_alarm 10 100 (some 5) 13 zeroCore)
      ([RttEv.evSetCounter 20 50] ++
        RttEv.evClearAlarm 30 :: [RttEv.evIsr 200])).2 := by
  intro hmem
  exact rtt_c6_clear_suppresses zeroCore 10 30 100 13 5
    [RttEv.evSetCounter 20 50] [RttEv.evIsr 200]
    (by decide) (by decide) (by decide) (5, 13) hmem rfl

end RttSpec

